import Mathlib

/-!
Verification of the upload service in `app.py` (Flask relay to a cloud
object store).  The handler `upload_file` is embedded shallowly: the byte
stream becomes a list of naturals with an explicit read position, the
object store becomes an association list from keys to blobs, and every
store interaction is recorded in a trace so that claims about which store
calls happen (and in which mode) can be stated and proved.
-/

set_option maxRecDepth 4000

namespace FirebaseUpload

/-! ## SHA-256 (FIPS 180-4) over byte lists, as `hashlib.sha256(...).hexdigest()` -/

def M32 : Nat := 4294967296

def rotr (n x : Nat) : Nat := ((x >>> n) ||| (x <<< (32 - n))) % M32

def bsig0 (x : Nat) : Nat := rotr 2 x ^^^ rotr 13 x ^^^ rotr 22 x

def bsig1 (x : Nat) : Nat := rotr 6 x ^^^ rotr 11 x ^^^ rotr 25 x

def ssig0 (x : Nat) : Nat := rotr 7 x ^^^ rotr 18 x ^^^ (x >>> 3)

def ssig1 (x : Nat) : Nat := rotr 17 x ^^^ rotr 19 x ^^^ (x >>> 10)

def chf (x y z : Nat) : Nat := (x &&& y) ^^^ ((x ^^^ (M32 - 1)) &&& z)

def majf (x y z : Nat) : Nat := (x &&& y) ^^^ (x &&& z) ^^^ (y &&& z)

def K256 : List Nat :=
  [1116352408, 1899447441, 3049323471, 3921009573, 961987163,
   1508970993, 2453635748, 2870763221, 3624381080, 310598401,
   607225278, 1426881987, 1925078388, 2162078206, 2614888103,
   3248222580, 3835390401, 4022224774, 264347078, 604807628,
   770255983, 1249150122, 1555081692, 1996064986, 2554220882,
   2821834349, 2952996808, 3210313671, 3336571891, 3584528711,
   113926993, 338241895, 666307205, 773529912, 1294757372,
   1396182291, 1695183700, 1986661051, 2177026350, 2456956037,
   2730485921, 2820302411, 3259730800, 3345764771, 3516065817,
   3600352804, 4094571909, 275423344, 430227734, 506948616,
   659060556, 883997877, 958139571, 1322822218, 1537002063,
   1747873779, 1955562222, 2024104815, 2227730452, 2361852424,
   2428436474, 2756734187, 3204031479, 3329325298]

structure SHAState where
  a : Nat
  b : Nat
  c : Nat
  d : Nat
  e : Nat
  f : Nat
  g : Nat
  h : Nat

def H0 : SHAState :=
  ⟨1779033703, 3144134277, 1013904242, 2773480762, 1359893119, 2600822924, 528734635, 1541459225⟩

def shaRound (st : SHAState) (kw : Nat × Nat) : SHAState :=
  let t1 := (st.h + bsig1 st.e + chf st.e st.f st.g + kw.1 + kw.2) % M32
  let t2 := (bsig0 st.a + majf st.a st.b st.c) % M32
  ⟨(t1 + t2) % M32, st.a, st.b, st.c, (st.d + t1) % M32, st.e, st.f, st.g⟩

/-- One step of the message-schedule extension, on the reversed schedule list
(most recent word first), so that `w[t-2]` is index 1, `w[t-7]` index 6,
`w[t-15]` index 14 and `w[t-16]` index 15. -/
def wExtend (rev : List Nat) : List Nat :=
  ((ssig1 (rev.getD 1 0) + rev.getD 6 0 + ssig0 (rev.getD 14 0) + rev.getD 15 0) % M32) :: rev

def buildW (w16 : List Nat) : List Nat :=
  ((List.range 48).foldl (fun l _ => wExtend l) w16.reverse).reverse

def toWords (block : List Nat) : List Nat :=
  (List.range 16).map fun i =>
    block.getD (4 * i) 0 * 16777216 + block.getD (4 * i + 1) 0 * 65536 +
      block.getD (4 * i + 2) 0 * 256 + block.getD (4 * i + 3) 0

def processBlock (hs : SHAState) (block : List Nat) : SHAState :=
  let st := (K256.zip (buildW (toWords block))).foldl shaRound hs
  ⟨(hs.a + st.a) % M32, (hs.b + st.b) % M32, (hs.c + st.c) % M32, (hs.d + st.d) % M32,
   (hs.e + st.e) % M32, (hs.f + st.f) % M32, (hs.g + st.g) % M32, (hs.h + st.h) % M32⟩

def sha256pad (msg : List Nat) : List Nat :=
  msg ++ 128 :: List.replicate ((64 - (msg.length + 9) % 64) % 64) 0
    ++ (List.range 8).map fun i => ((8 * msg.length) >>> (8 * (7 - i))) % 256

def sha256blocks (p : List Nat) : List (List Nat) :=
  (List.range (p.length / 64)).map fun i => (p.drop (64 * i)).take 64

/-- The lowercase hex digit for a nibble: `0`-`9` then `a`-`f`. -/
def hexDigitChar (n : Nat) : Char :=
  if n < 10 then Char.ofNat (48 + n) else Char.ofNat (87 + n)

def wordHexChars (w : Nat) : List Char :=
  (List.range 8).map fun i => hexDigitChar (w / 16 ^ (7 - i) % 16)

/-- `hashlib.sha256(msg).hexdigest()`: lowercase hex of the full 256-bit digest. -/
def sha256hexdigest (msg : List Nat) : String :=
  let s := (sha256blocks (sha256pad msg)).foldl processBlock H0
  String.mk (([s.a, s.b, s.c, s.d, s.e, s.f, s.g, s.h].map wordHexChars).flatten)

/-! ## Python string operations used by the handler -/

def isPySpace (c : Char) : Bool :=
  c == ' ' || c == '\t' || c == '\n' || c == '\x0d' || c == '\x0b' || c == '\x0c'

def stripEnds (p : Char → Bool) (l : List Char) : List Char :=
  ((l.dropWhile p).reverse.dropWhile p).reverse

/-- Python `str.strip()` (whitespace from both ends). -/
def pyStrip (s : String) : String := String.mk (stripEnds isPySpace s.toList)

/-- Python `str.strip('/')`. -/
def pyStripSlashes (s : String) : String := String.mk (stripEnds (· == '/') s.toList)

/-- Python `str.lower()` (ASCII range, which covers every string in play). -/
def pyLower (s : String) : String := String.mk (s.toList.map Char.toLower)

/-- The part of the string after the last `'.'`: `s.rsplit('.', 1)[1]`
when `'.' in s`. -/
def afterLastDot (s : String) : String :=
  String.mk (s.toList.reverse.takeWhile (fun c => c != '.')).reverse

/-- Python slicing `s[:n]`. -/
def strTake (s : String) (n : Nat) : String := String.mk (s.toList.take n)

/-- `request.form.get(k, d)`. -/
def formGet (form : List (String × String)) (k d : String) : String :=
  (form.lookup k).getD d

/-! ## Data model: streams, store, requests, responses

A werkzeug `FileStorage` is a byte stream with a read position
(`seek`/`tell`/`read`).  The Firebase bucket is an association list from
storage keys to blobs; `storePut` prepends, so a later put at the same key
shadows (overwrites) the earlier blob.  Every bucket interaction performed
by the handler is recorded in a `StoreOp` trace. -/

structure FileStream where
  filename : String
  data : List Nat
  content_type : String
  pos : Nat
deriving DecidableEq, Repr

def fseek (f : FileStream) (n : Nat) : FileStream := { f with pos := n }

/-- `file.seek(0, os.SEEK_END)`. -/
def fseekEnd (f : FileStream) : FileStream := { f with pos := f.data.length }

/-- `file.tell()`. -/
def ftell (f : FileStream) : Nat := f.pos

/-- `file.read()`: everything from the current position to the end; the
position ends up at the end of the stream. -/
def fread (f : FileStream) : List Nat × FileStream :=
  (f.data.drop f.pos, { f with pos := f.data.length })

structure Blob where
  content : List Nat
  contentType : String
deriving DecidableEq, Repr

abbrev Store := List (String × Blob)

/-- `blob.exists()`. -/
def storeExists (store : Store) (key : String) : Bool :=
  (List.lookup key store).isSome

/-- `blob.upload_from_file(...)` / overwrite semantics: the most recent
entry for a key shadows the earlier ones. -/
def storePut (store : Store) (key : String) (bytes : List Nat) (ct : String) : Store :=
  (key, ⟨bytes, ct⟩) :: store

def storeLookup (store : Store) (key : String) : Option Blob :=
  List.lookup key store

/-- `blob.public_url`: a deterministic function of the storage key. -/
def public_url (key : String) : String :=
  "https://storage.googleapis.com/bucket/" ++ key

inductive StoreOp where
  | existsCheck (key : String)
  | reload (key : String)
  | put (key : String) (bytes : List Nat) (contentType : String)
  | makePublic (key : String)
deriving DecidableEq, Repr

structure UploadReq where
  file : Option FileStream
  form : List (String × String)

structure UploadData where
  filename : String
  storage_path : String
  original_filename : String
  size : Nat
  content_type : String
  url : String
deriving DecidableEq, Repr

/-- A JSON response: an error with its HTTP status code, or the success
payload (returned with code 200 in `app.py`). -/
inductive UploadResp where
  | err (code : Nat) (msg : String)
  | ok (code : Nat) (message : String) (data : UploadData)
deriving DecidableEq, Repr

/-! ## The handler `upload_file` (app.py lines 56-161) -/

def ALLOWED_EXTENSIONS : List String := ["jpg", "jpeg", "mp4"]

def MAX_FILE_SIZE : Nat := 100 * 1024 * 1024

/-- `allowed_file` (app.py lines 44-47):
`'.' in filename and filename.rsplit('.', 1)[1].lower() in ALLOWED_EXTENSIONS`. -/
def allowed_file (filename : String) : Bool :=
  filename.toList.contains '.' && ALLOWED_EXTENSIONS.contains (pyLower (afterLastDot filename))

/-- app.py lines 92-93:
`request.form.get('use_original_name', 'false').lower() == 'true'`. -/
def parse_use_original_name (form : List (String × String)) : Bool :=
  pyLower (formGet form "use_original_name" "false") == "true"

/-- app.py lines 106-110 (dedup branch): seek to the start, hash the whole
stream, seek back to the start, and build `f"{file_hash}.{extension}"`. -/
def dedup_filename (file : FileStream) (extension : String) : String × FileStream :=
  let f := fseek file 0
  let r := fread f
  let file_hash := strTake (sha256hexdigest r.1) 16
  (file_hash ++ "." ++ extension, fseek r.2 0)

/-- The `/upload` handler.  Returns the JSON response, the store after the
request, and the trace of bucket operations in the order performed. -/
def upload_file (req : UploadReq) (store : Store) : UploadResp × Store × List StoreOp :=
  match req.file with
  | none => (.err 400 "No file provided", store, [])
  | some file₀ =>
    if file₀.filename = "" then (.err 400 "No file selected", store, [])
    else if !allowed_file file₀.filename then
      (.err 400 "File type not allowed. Only jpg, jpeg, and mp4 are supported", store, [])
    else
      let file₁ := fseekEnd file₀
      let file_size := ftell file₁
      let file₂ := fseek file₁ 0
      if file_size > MAX_FILE_SIZE then
        (.err 400 "File too large. Maximum size is 100.0MB", store, [])
      else
        let folder := pyStrip (formGet req.form "folder" "")
        let use_original_name := parse_use_original_name req.form
        let original_filename := if file₂.filename = "" then "unnamed" else file₂.filename
        let extension :=
          if original_filename.toList.contains '.' then pyLower (afterLastDot original_filename)
          else ""
        let uf := if use_original_name then (original_filename, file₂)
                  else dedup_filename file₂ extension
        let unique_filename := uf.1
        let file₃ := uf.2
        let storage_path :=
          if folder ≠ "" then pyStripSlashes folder ++ "/" ++ unique_filename
          else unique_filename
        if !use_original_name && storeExists store storage_path then
          (.ok 200 "File already exists"
             ⟨unique_filename, storage_path, original_filename, file_size,
              file₃.content_type, public_url storage_path⟩,
           store, [.existsCheck storage_path, .reload storage_path])
        else
          let uploaded := (fread file₃).1
          (.ok 200 "File uploaded successfully"
             ⟨unique_filename, storage_path, original_filename, file_size,
              file₃.content_type, public_url storage_path⟩,
           storePut store storage_path uploaded file₃.content_type,
           (if use_original_name then [] else [.existsCheck storage_path])
             ++ [.put storage_path uploaded file₃.content_type, .makePublic storage_path])

/-! ## Evaluation lemma: the handler on a validated request -/

/-- Closed form of `upload_file` on a request that passes the three
validation gates; proved equal to the handler in `upload_eval`. -/
def upload_spec (fn : String) (data : List Nat) (ct : String)
    (form : List (String × String)) (store : Store) : UploadResp × Store × List StoreOp :=
  let folder := pyStrip (formGet form "folder" "")
  let uon := parse_use_original_name form
  let uf := if uon then fn
            else strTake (sha256hexdigest data) 16 ++ "." ++ pyLower (afterLastDot fn)
  let sp := if folder ≠ "" then pyStripSlashes folder ++ "/" ++ uf else uf
  if !uon && storeExists store sp then
    (.ok 200 "File already exists" ⟨uf, sp, fn, data.length, ct, public_url sp⟩,
     store, [.existsCheck sp, .reload sp])
  else
    (.ok 200 "File uploaded successfully" ⟨uf, sp, fn, data.length, ct, public_url sp⟩,
     storePut store sp data ct,
     (if uon then [] else [.existsCheck sp]) ++ [.put sp data ct, .makePublic sp])

/-- The storage key computed by the handler in dedup mode (the value the
`storage_path` variable takes at app.py line 116/118 when
`use_original_name` is false). -/
def dedup_key (fn : String) (data : List Nat) (form : List (String × String)) : String :=
  let folder := pyStrip (formGet form "folder" "")
  let uf := strTake (sha256hexdigest data) 16 ++ "." ++ pyLower (afterLastDot fn)
  if folder ≠ "" then pyStripSlashes folder ++ "/" ++ uf else uf

/-- The storage key computed by the handler in original-name mode. -/
def orig_key (fn : String) (form : List (String × String)) : String :=
  let folder := pyStrip (formGet form "folder" "")
  if folder ≠ "" then pyStripSlashes folder ++ "/" ++ fn else fn

/-- `segs l` is the list of `'/'`-separated segments of `l` (as in Python's
`"a/b".split('/')`): a leading slash, a trailing slash, or a doubled slash
each contribute an empty segment, so "the key has no leading or trailing
slash and no empty path segment" is exactly `[] ∉ segs key.toList`. -/
def segs : List Char → List (List Char)
  | [] => [[]]
  | c :: rest =>
    if c = '/' then [] :: segs rest
    else
      match segs rest with
      | [] => [[c]]
      | s :: ss => (c :: s) :: ss

theorem upload_eval (fn : String) (data : List Nat) (ct : String) (pos : Nat)
    (form : List (String × String)) (store : Store)
    (h1 : fn ≠ "") (h2 : allowed_file fn = true) (h3 : data.length ≤ MAX_FILE_SIZE) :
    upload_file ⟨some ⟨fn, data, ct, pos⟩, form⟩ store = upload_spec fn data ct form store := by
  have hdot : fn.toList.contains '.' = true := by
    have h := h2
    unfold allowed_file at h
    exact (Bool.and_eq_true _ _).mp h |>.1
  unfold upload_file upload_spec dedup_filename
  simp only [fseekEnd, fseek, ftell, fread, List.drop_zero]
  rw [if_neg h1, if_neg (by simp [h2]), if_neg (by simpa using h3)]
  simp only [if_neg h1, hdot, if_pos rfl, if_true]
  cases huon : parse_use_original_name form <;> simp [huon]

/-! ## Slash-separated path segments -/

theorem segs_ne_nil (l : List Char) : segs l ≠ [] := by
  match l with
  | [] => simp [segs]
  | c :: rest =>
    unfold segs
    split
    · simp
    · cases h : segs rest <;> simp

theorem segs_cons (c : Char) (l : List Char) :
    segs (c :: l) = if c = '/' then [] :: segs l
                    else match segs l with
                         | [] => [[c]]
                         | s :: ss => (c :: s) :: ss := rfl

theorem segs_append_slash (a b : List Char) : segs (a ++ '/' :: b) = segs a ++ segs b := by
  induction a with
  | nil => rfl
  | cons c rest ih =>
    rw [List.cons_append, segs_cons, segs_cons, ih]
    by_cases hc : c = '/'
    · rw [if_pos hc, if_pos hc]
      rfl
    · rw [if_neg hc, if_neg hc]
      cases h : segs rest with
      | nil => exact absurd h (segs_ne_nil rest)
      | cons s ss => simp [h]

theorem segs_of_no_slash (l : List Char) (h : '/' ∉ l) : segs l = [l] := by
  induction l with
  | nil => simp [segs]
  | cons c rest ih =>
    have hc : c ≠ '/' := fun hc => h (hc ▸ List.mem_cons_self c rest)
    have hr : '/' ∉ rest := fun hm => h (List.mem_cons_of_mem c hm)
    simp [segs, hc, ih hr]

/-- A list with no empty slash-segment neither starts nor ends with `'/'`
and has no `"//"` infix. -/
theorem clean_of_segs (l : List Char) (h : [] ∉ segs l) :
    l.head? ≠ some '/' ∧ l.getLast? ≠ some '/' ∧ ¬ ['/', '/'] <:+: l := by
  refine ⟨?_, ?_, ?_⟩
  · intro hh
    cases l with
    | nil => simp at hh
    | cons c t =>
      simp only [List.head?_cons, Option.some.injEq] at hh
      subst hh
      exact h (by simp [segs])
  · intro hl
    have := List.dropLast_append_getLast? '/' hl
    apply h
    rw [← this]
    have : l.dropLast ++ ['/'] = l.dropLast ++ '/' :: [] := rfl
    rw [this, segs_append_slash]
    simp [segs]
  · rintro ⟨u, v, huv⟩
    apply h
    have : u ++ ['/', '/'] ++ v = u ++ '/' :: ('/' :: v) := by simp
    rw [← huv, this, segs_append_slash]
    simp [segs]

/-! ## The hex digest is made of hex characters -/

theorem hexDigitChar_mod_ne_slash (n : Nat) : hexDigitChar (n % 16) ≠ '/' := by
  have h16 : n % 16 < 16 := Nat.mod_lt _ (by decide)
  have : ∀ m, m < 16 → hexDigitChar m ≠ '/' := by decide
  exact this _ h16

theorem wordHexChars_ne_slash (w : Nat) (c : Char) (hc : c ∈ wordHexChars w) : c ≠ '/' := by
  unfold wordHexChars at hc
  obtain ⟨i, _, rfl⟩ := List.mem_map.mp hc
  exact hexDigitChar_mod_ne_slash _

theorem sha256hexdigest_no_slash (m : List Nat) : '/' ∉ (sha256hexdigest m).toList := by
  intro hmem
  unfold sha256hexdigest at hmem
  simp only [String.toList] at hmem
  rw [List.mem_flatten] at hmem
  obtain ⟨chunk, hchunk, hmm⟩ := hmem
  obtain ⟨w, _, rfl⟩ := List.mem_map.mp hchunk
  exact wordHexChars_ne_slash w _ hmm rfl

theorem sha256hexdigest_length (m : List Nat) : (sha256hexdigest m).toList.length = 64 := by
  unfold sha256hexdigest
  simp [wordHexChars]

/-! ## Strings: `toList` distributes over append -/

theorem toList_append (s t : String) : (s ++ t).toList = s.toList ++ t.toList := rfl

theorem toList_mk (l : List Char) : (String.mk l).toList = l := rfl

/-- Dedup upload against a store that does not hold the key yet: the
handler checks existence, puts the full payload, publishes, and answers
"File uploaded successfully". -/
theorem upload_dedup_fresh (fn : String) (data : List Nat) (ct : String) (pos : Nat)
    (form : List (String × String)) (store : Store)
    (h1 : fn ≠ "") (h2 : allowed_file fn = true) (h3 : data.length ≤ MAX_FILE_SIZE)
    (h4 : parse_use_original_name form = false)
    (h5 : storeExists store (dedup_key fn data form) = false) :
    upload_file ⟨some ⟨fn, data, ct, pos⟩, form⟩ store =
      (.ok 200 "File uploaded successfully"
         ⟨strTake (sha256hexdigest data) 16 ++ "." ++ pyLower (afterLastDot fn),
          dedup_key fn data form, fn, data.length, ct, public_url (dedup_key fn data form)⟩,
       storePut store (dedup_key fn data form) data ct,
       [.existsCheck (dedup_key fn data form), .put (dedup_key fn data form) data ct,
        .makePublic (dedup_key fn data form)]) := by
  rw [upload_eval fn data ct pos form store h1 h2 h3]
  unfold upload_spec dedup_key
  simp only [h4, Bool.not_false, Bool.true_and, Bool.false_eq_true, if_false]
  rw [if_neg (by simpa [dedup_key] using h5)]
  rfl

/-- Dedup upload against a store that already holds the key: the handler
checks existence, reloads the blob's metadata, performs no put, leaves the
store unchanged, and answers "File already exists". -/
theorem upload_dedup_hit (fn : String) (data : List Nat) (ct : String) (pos : Nat)
    (form : List (String × String)) (store : Store)
    (h1 : fn ≠ "") (h2 : allowed_file fn = true) (h3 : data.length ≤ MAX_FILE_SIZE)
    (h4 : parse_use_original_name form = false)
    (h5 : storeExists store (dedup_key fn data form) = true) :
    upload_file ⟨some ⟨fn, data, ct, pos⟩, form⟩ store =
      (.ok 200 "File already exists"
         ⟨strTake (sha256hexdigest data) 16 ++ "." ++ pyLower (afterLastDot fn),
          dedup_key fn data form, fn, data.length, ct, public_url (dedup_key fn data form)⟩,
       store, [.existsCheck (dedup_key fn data form), .reload (dedup_key fn data form)]) := by
  rw [upload_eval fn data ct pos form store h1 h2 h3]
  unfold upload_spec dedup_key
  simp only [h4, Bool.not_false, Bool.true_and, Bool.false_eq_true, if_false]
  rw [if_pos (by simpa [dedup_key] using h5)]

/-! ## Claims -/

/-- Claim C1, counterexample.  For the folder string "x/" — non-empty after
whitespace trimming — the handler strips the trailing slash and produces the
key `x/ba7816bf8f01cfea.jpg`, not the claim's `folder ++ "/" ++ hash.ext`,
which would be `x//ba7816bf8f01cfea.jpg`. -/
theorem C1_counterexample :
    (upload_file ⟨some ⟨"photo.jpg", [97, 98, 99], "image/jpeg", 0⟩,
        [("folder", "x/")]⟩ []).1 =
      .ok 200 "File uploaded successfully"
        ⟨"ba7816bf8f01cfea.jpg", "x/ba7816bf8f01cfea.jpg", "photo.jpg", 3, "image/jpeg",
         public_url "x/ba7816bf8f01cfea.jpg"⟩ ∧
    pyStrip "x/" ≠ "" ∧
    "x/ba7816bf8f01cfea.jpg" ≠
      "x/" ++ "/" ++ strTake (sha256hexdigest [97, 98, 99]) 16 ++ "." ++ "jpg" :=
  ⟨by decide, by decide, by decide⟩

/-- Claim C1 (amended): in dedup mode on a validated request the storage key
is the first 16 hex characters of the SHA-256 digest of the payload, a dot,
and the lowercased extension, prefixed — when the whitespace-trimmed folder
is non-empty — by the folder with surrounding whitespace and slashes
stripped, followed by `/`; the response carries that key as `storage_path`
and the caller's filename as `original_filename`. -/
theorem C1_dedup_key (fn : String) (data : List Nat) (ct : String) (pos : Nat)
    (form : List (String × String)) (store : Store)
    (h1 : fn ≠ "") (h2 : allowed_file fn = true) (h3 : data.length ≤ MAX_FILE_SIZE)
    (h4 : parse_use_original_name form = false) :
    ∃ msg d, (upload_file ⟨some ⟨fn, data, ct, pos⟩, form⟩ store).1 = .ok 200 msg d ∧
      d.storage_path =
        (if pyStrip (formGet form "folder" "") = "" then ""
         else pyStripSlashes (pyStrip (formGet form "folder" "")) ++ "/") ++
          strTake (sha256hexdigest data) 16 ++ "." ++ pyLower (afterLastDot fn) ∧
      d.original_filename = fn := by
  rw [upload_eval fn data ct pos form store h1 h2 h3]
  unfold upload_spec
  simp only [h4, Bool.false_eq_true, if_false, Bool.not_false, Bool.true_and]
  by_cases hf : pyStrip (formGet form "folder" "") = ""
  · simp only [hf, ne_eq, not_true_eq_false, if_false, if_pos rfl]
    split
    · exact ⟨_, _, rfl, by simp [String.empty_append], rfl⟩
    · exact ⟨_, _, rfl, by simp [String.empty_append], rfl⟩
  · simp only [ne_eq, hf, not_false_eq_true, if_true, if_neg hf]
    split
    · exact ⟨_, _, rfl, by simp [String.append_assoc], rfl⟩
    · exact ⟨_, _, rfl, by simp [String.append_assoc], rfl⟩

/-- Witness for `C1_dedup_key`: the spec's own example — `photo.jpg`, bytes
`b"abc"`, folder `"trips/2024"`, dedup mode. -/
theorem C1_dedup_key_witness :
    ("photo.jpg" : String) ≠ "" ∧ allowed_file "photo.jpg" = true ∧
    ([97, 98, 99] : List Nat).length ≤ MAX_FILE_SIZE ∧
    parse_use_original_name [("folder", "trips/2024")] = false ∧
    (∃ msg d, (upload_file ⟨some ⟨"photo.jpg", [97, 98, 99], "image/jpeg", 0⟩,
        [("folder", "trips/2024")]⟩ []).1 = .ok 200 msg d ∧
      d.storage_path =
        (if pyStrip (formGet [("folder", "trips/2024")] "folder" "") = "" then ""
         else pyStripSlashes (pyStrip (formGet [("folder", "trips/2024")] "folder" "")) ++ "/") ++
          strTake (sha256hexdigest [97, 98, 99]) 16 ++ "." ++ pyLower (afterLastDot "photo.jpg") ∧
      d.original_filename = "photo.jpg") :=
  ⟨by decide, by decide, by decide, by decide,
   C1_dedup_key "photo.jpg" [97, 98, 99] "image/jpeg" 0 [("folder", "trips/2024")] []
     (by decide) (by decide) (by decide) (by decide)⟩

/-- Claim C2: uploading the same payload twice in dedup mode yields the same
storage key; the second request finds the blob, performs no `put` (its trace
is exactly an existence check followed by a metadata reload), leaves the
store unchanged, and answers 200 "File already exists" with the same public
URL as the first upload. -/
theorem C2_dedup_idempotent (fn : String) (data : List Nat) (ct : String) (pos : Nat)
    (form : List (String × String)) (store : Store)
    (h1 : fn ≠ "") (h2 : allowed_file fn = true) (h3 : data.length ≤ MAX_FILE_SIZE)
    (h4 : parse_use_original_name form = false)
    (h5 : storeExists store (dedup_key fn data form) = false) :
    upload_file ⟨some ⟨fn, data, ct, pos⟩, form⟩ store =
      (.ok 200 "File uploaded successfully"
         ⟨strTake (sha256hexdigest data) 16 ++ "." ++ pyLower (afterLastDot fn),
          dedup_key fn data form, fn, data.length, ct, public_url (dedup_key fn data form)⟩,
       storePut store (dedup_key fn data form) data ct,
       [.existsCheck (dedup_key fn data form), .put (dedup_key fn data form) data ct,
        .makePublic (dedup_key fn data form)]) ∧
    upload_file ⟨some ⟨fn, data, ct, pos⟩, form⟩
        (storePut store (dedup_key fn data form) data ct) =
      (.ok 200 "File already exists"
         ⟨strTake (sha256hexdigest data) 16 ++ "." ++ pyLower (afterLastDot fn),
          dedup_key fn data form, fn, data.length, ct, public_url (dedup_key fn data form)⟩,
       storePut store (dedup_key fn data form) data ct,
       [.existsCheck (dedup_key fn data form), .reload (dedup_key fn data form)]) := by
  have hexi : storeExists (storePut store (dedup_key fn data form) data ct)
      (dedup_key fn data form) = true := by
    simp [storeExists, storePut, List.lookup]
  exact ⟨upload_dedup_fresh fn data ct pos form store h1 h2 h3 h4 h5,
    upload_dedup_hit fn data ct pos form _ h1 h2 h3 h4 hexi⟩

/-- Witness for `C2_dedup_idempotent` at a concrete request. -/
theorem C2_dedup_idempotent_witness :
    ("clip.mp4" : String) ≠ "" ∧ allowed_file "clip.mp4" = true ∧
    ([7, 8] : List Nat).length ≤ MAX_FILE_SIZE ∧
    parse_use_original_name [] = false ∧
    storeExists [] (dedup_key "clip.mp4" [7, 8] []) = false ∧
    (upload_file ⟨some ⟨"clip.mp4", [7, 8], "video/mp4", 0⟩, []⟩ [] =
      (.ok 200 "File uploaded successfully"
         ⟨strTake (sha256hexdigest [7, 8]) 16 ++ "." ++ pyLower (afterLastDot "clip.mp4"),
          dedup_key "clip.mp4" [7, 8] [], "clip.mp4", 2, "video/mp4",
          public_url (dedup_key "clip.mp4" [7, 8] [])⟩,
       storePut [] (dedup_key "clip.mp4" [7, 8] []) [7, 8] "video/mp4",
       [.existsCheck (dedup_key "clip.mp4" [7, 8] []),
        .put (dedup_key "clip.mp4" [7, 8] []) [7, 8] "video/mp4",
        .makePublic (dedup_key "clip.mp4" [7, 8] [])]) ∧
     upload_file ⟨some ⟨"clip.mp4", [7, 8], "video/mp4", 0⟩, []⟩
        (storePut [] (dedup_key "clip.mp4" [7, 8] []) [7, 8] "video/mp4") =
      (.ok 200 "File already exists"
         ⟨strTake (sha256hexdigest [7, 8]) 16 ++ "." ++ pyLower (afterLastDot "clip.mp4"),
          dedup_key "clip.mp4" [7, 8] [], "clip.mp4", 2, "video/mp4",
          public_url (dedup_key "clip.mp4" [7, 8] [])⟩,
       storePut [] (dedup_key "clip.mp4" [7, 8] []) [7, 8] "video/mp4",
       [.existsCheck (dedup_key "clip.mp4" [7, 8] []),
        .reload (dedup_key "clip.mp4" [7, 8] [])])) :=
  ⟨by decide, by decide, by decide, by decide, by decide,
   C2_dedup_idempotent "clip.mp4" [7, 8] "video/mp4" 0 [] []
     (by decide) (by decide) (by decide) (by decide) (by decide)⟩

/-- Claim C3, counterexample.  In original-name mode the handler uses the
caller's filename as-is (app.py line 104); for the filename
`"../../secret.jpg"` the storage key keeps both path-traversal `".."`
segments, so no sanitization step exists. -/
theorem C3_counterexample :
    (upload_file ⟨some ⟨"../../secret.jpg", [1], "image/jpeg", 0⟩,
        [("use_original_name", "true")]⟩ []).1 =
      .ok 200 "File uploaded successfully"
        ⟨"../../secret.jpg", "../../secret.jpg", "../../secret.jpg", 1, "image/jpeg",
         public_url "../../secret.jpg"⟩ ∧
    ['.', '.'] ∈ segs ("../../secret.jpg".toList) :=
  ⟨by decide, by decide⟩

/-- Claim C3 (amended): in original-name mode the storage key is the
caller's filename verbatim (folder-prefixed when a folder is given); no
sanitization is applied, so path-traversal segments and unsafe characters
in the filename are preserved in the key. -/
theorem C3_original_name_verbatim (fn : String) (data : List Nat) (ct : String) (pos : Nat)
    (form : List (String × String)) (store : Store)
    (h1 : fn ≠ "") (h2 : allowed_file fn = true) (h3 : data.length ≤ MAX_FILE_SIZE)
    (h4 : parse_use_original_name form = true) :
    (upload_file ⟨some ⟨fn, data, ct, pos⟩, form⟩ store).1 =
      .ok 200 "File uploaded successfully"
        ⟨fn, orig_key fn form, fn, data.length, ct, public_url (orig_key fn form)⟩ := by
  rw [upload_eval fn data ct pos form store h1 h2 h3]
  unfold upload_spec orig_key
  simp only [h4, if_true, Bool.not_true, Bool.false_and, Bool.false_eq_true, if_false]

/-- Witness for `C3_original_name_verbatim` at a traversal-laden filename. -/
theorem C3_original_name_verbatim_witness :
    ("../up/../x.jpg" : String) ≠ "" ∧ allowed_file "../up/../x.jpg" = true ∧
    ([9] : List Nat).length ≤ MAX_FILE_SIZE ∧
    parse_use_original_name [("use_original_name", "True")] = true ∧
    (upload_file ⟨some ⟨"../up/../x.jpg", [9], "image/jpeg", 0⟩,
        [("use_original_name", "True")]⟩ []).1 =
      .ok 200 "File uploaded successfully"
        ⟨"../up/../x.jpg", orig_key "../up/../x.jpg" [("use_original_name", "True")],
         "../up/../x.jpg", 1, "image/jpeg",
         public_url (orig_key "../up/../x.jpg" [("use_original_name", "True")])⟩ :=
  ⟨by decide, by decide, by decide, by decide,
   C3_original_name_verbatim "../up/../x.jpg" [9] "image/jpeg" 0
     [("use_original_name", "True")] [] (by decide) (by decide) (by decide) (by decide)⟩

/-- Claim C4: the existence check happens only in dedup mode.  In
original-name mode the trace holds no `existsCheck`: the bytes go up
unconditionally, so two uploads of different payloads under the same
filename both succeed, and the key finally holds the second payload. -/
theorem C4_original_name_overwrites (fn : String) (d1 d2 : List Nat) (ct : String)
    (pos : Nat) (form : List (String × String)) (store : Store)
    (h1 : fn ≠ "") (h2 : allowed_file fn = true)
    (h3 : d1.length ≤ MAX_FILE_SIZE) (h3' : d2.length ≤ MAX_FILE_SIZE)
    (h4 : parse_use_original_name form = true) (h5 : d1 ≠ d2) :
    upload_file ⟨some ⟨fn, d1, ct, pos⟩, form⟩ store =
      (.ok 200 "File uploaded successfully"
         ⟨fn, orig_key fn form, fn, d1.length, ct, public_url (orig_key fn form)⟩,
       storePut store (orig_key fn form) d1 ct,
       [.put (orig_key fn form) d1 ct, .makePublic (orig_key fn form)]) ∧
    upload_file ⟨some ⟨fn, d2, ct, pos⟩, form⟩ (storePut store (orig_key fn form) d1 ct) =
      (.ok 200 "File uploaded successfully"
         ⟨fn, orig_key fn form, fn, d2.length, ct, public_url (orig_key fn form)⟩,
       storePut (storePut store (orig_key fn form) d1 ct) (orig_key fn form) d2 ct,
       [.put (orig_key fn form) d2 ct, .makePublic (orig_key fn form)]) ∧
    storeLookup (storePut (storePut store (orig_key fn form) d1 ct) (orig_key fn form) d2 ct)
        (orig_key fn form) = some ⟨d2, ct⟩ := by
  refine ⟨?_, ?_, ?_⟩
  · rw [upload_eval fn d1 ct pos form store h1 h2 h3]
    unfold upload_spec orig_key
    simp only [h4, if_true, Bool.not_true, Bool.false_and, Bool.false_eq_true, if_false]
    rfl
  · rw [upload_eval fn d2 ct pos form _ h1 h2 h3']
    unfold upload_spec orig_key
    simp only [h4, if_true, Bool.not_true, Bool.false_and, Bool.false_eq_true, if_false]
    rfl
  · simp [storeLookup, storePut, List.lookup]

/-- Witness for `C4_original_name_overwrites` at a concrete pair of
uploads. -/
theorem C4_original_name_overwrites_witness :
    ("same.jpg" : String) ≠ "" ∧ allowed_file "same.jpg" = true ∧
    ([1, 2] : List Nat).length ≤ MAX_FILE_SIZE ∧
    ([3] : List Nat).length ≤ MAX_FILE_SIZE ∧
    parse_use_original_name [("use_original_name", "true")] = true ∧
    ([1, 2] : List Nat) ≠ [3] ∧
    storeLookup
        (storePut (storePut [] (orig_key "same.jpg" [("use_original_name", "true")]) [1, 2] "image/jpeg")
          (orig_key "same.jpg" [("use_original_name", "true")]) [3] "image/jpeg")
        (orig_key "same.jpg" [("use_original_name", "true")]) = some ⟨[3], "image/jpeg"⟩ :=
  ⟨by decide, by decide, by decide, by decide, by decide, by decide,
   (C4_original_name_overwrites "same.jpg" [1, 2] [3] "image/jpeg" 0
     [("use_original_name", "true")] [] (by decide) (by decide) (by decide) (by decide)
     (by decide) (by decide)).2.2⟩

theorem allowed_ext_cases (fn : String) (h : allowed_file fn = true) :
    pyLower (afterLastDot fn) = "jpg" ∨ pyLower (afterLastDot fn) = "jpeg" ∨
      pyLower (afterLastDot fn) = "mp4" := by
  unfold allowed_file ALLOWED_EXTENSIONS at h
  have h2 := ((Bool.and_eq_true _ _).mp h).2
  simpa using h2

/-- The dedup basename `hash.ext` contains no slash and is non-empty, hence
is a single non-empty path segment. -/
theorem dedup_basename_clean (data : List Nat) (ext : String) (hx : '/' ∉ ext.toList) :
    [] ∉ segs (strTake (sha256hexdigest data) 16 ++ "." ++ ext).toList := by
  have hns : '/' ∉ (strTake (sha256hexdigest data) 16 ++ "." ++ ext).toList := by
    rw [toList_append, toList_append]
    intro hm
    rcases List.mem_append.mp hm with hm | hm
    · rcases List.mem_append.mp hm with hm | hm
      · simp only [strTake, toList_mk] at hm
        exact sha256hexdigest_no_slash data (List.take_subset _ _ hm)
      · simp at hm
    · exact hx hm
  have hne : (strTake (sha256hexdigest data) 16 ++ "." ++ ext).toList ≠ [] := by
    rw [toList_append, toList_append]
    simp
  rw [segs_of_no_slash _ hns]
  simp [hne]

/-- Claim C5, counterexample.  The folder string `"/"` survives the
truthiness test (it is non-empty after whitespace trimming) but strips to
the empty string, so the computed key `/ba7816bf8f01cfea.jpg` starts with a
slash — an empty leading path segment. -/
theorem C5_counterexample :
    (upload_file ⟨some ⟨"photo.jpg", [97, 98, 99], "image/jpeg", 0⟩,
        [("folder", "/")]⟩ []).1 =
      .ok 200 "File uploaded successfully"
        ⟨"ba7816bf8f01cfea.jpg", "/ba7816bf8f01cfea.jpg", "photo.jpg", 3, "image/jpeg",
         public_url "/ba7816bf8f01cfea.jpg"⟩ ∧
    ("/ba7816bf8f01cfea.jpg".toList.head? = some '/') ∧
    [] ∈ segs ("/ba7816bf8f01cfea.jpg".toList) :=
  ⟨by decide, by decide, by decide⟩

/-- Claim C5 (amended): the computed storage key has no leading or trailing
slash and no empty path segment, provided the folder field is empty after
whitespace trimming or, once also slash-stripped, splits into non-empty
segments only, and provided in original-name mode the caller's filename
itself splits into non-empty segments only (the handler inserts no
sanitization of either input; `C5_counterexample` shows the folder
proviso is needed). -/
theorem C5_key_clean (fn : String) (data : List Nat) (ct : String) (pos : Nat)
    (form : List (String × String)) (store : Store)
    (h1 : fn ≠ "") (h2 : allowed_file fn = true) (h3 : data.length ≤ MAX_FILE_SIZE)
    (h4 : pyStrip (formGet form "folder" "") = "" ∨
          [] ∉ segs (pyStripSlashes (pyStrip (formGet form "folder" ""))).toList)
    (h5 : parse_use_original_name form = true → [] ∉ segs fn.toList) :
    ∃ msg d, (upload_file ⟨some ⟨fn, data, ct, pos⟩, form⟩ store).1 = .ok 200 msg d ∧
      [] ∉ segs d.storage_path.toList ∧
      d.storage_path.toList.head? ≠ some '/' ∧
      d.storage_path.toList.getLast? ≠ some '/' ∧
      ¬ ['/', '/'] <:+: d.storage_path.toList := by
  rw [upload_eval fn data ct pos form store h1 h2 h3]
  unfold upload_spec
  cases huon : parse_use_original_name form with
  | true =>
    simp only [huon, if_true, Bool.not_true, Bool.false_and, Bool.false_eq_true, if_false]
    have hbase : [] ∉ segs fn.toList := h5 huon
    by_cases hf : pyStrip (formGet form "folder" "") = ""
    · simp only [hf, ne_eq, not_true_eq_false, if_false]
      exact ⟨_, _, rfl, hbase, (clean_of_segs _ hbase).1, (clean_of_segs _ hbase).2.1,
        (clean_of_segs _ hbase).2.2⟩
    · simp only [ne_eq, hf, not_false_eq_true, if_true]
      have hsp : [] ∉ segs ((pyStripSlashes (pyStrip (formGet form "folder" "")) ++ "/" ++
          fn).toList) := by
        rw [toList_append, toList_append]
        have hsh : ("/" : String).toList = ['/'] := rfl
        rw [hsh, List.append_assoc, List.singleton_append, segs_append_slash]
        intro hm
        rcases List.mem_append.mp hm with hm | hm
        · exact (h4.resolve_left hf) hm
        · exact hbase hm
      exact ⟨_, _, rfl, hsp, (clean_of_segs _ hsp).1, (clean_of_segs _ hsp).2.1,
        (clean_of_segs _ hsp).2.2⟩
  | false =>
    simp only [huon, Bool.false_eq_true, if_false, Bool.not_false, Bool.true_and]
    have hbase : [] ∉ segs ((strTake (sha256hexdigest data) 16 ++ "." ++
        pyLower (afterLastDot fn)).toList) := by
      have hx : '/' ∉ (pyLower (afterLastDot fn)).toList := by
        rcases allowed_ext_cases fn h2 with h | h | h <;> rw [h] <;> decide
      exact dedup_basename_clean data _ hx
    by_cases hf : pyStrip (formGet form "folder" "") = ""
    · simp only [hf, ne_eq, not_true_eq_false, if_false]
      split
      · exact ⟨_, _, rfl, hbase, (clean_of_segs _ hbase).1, (clean_of_segs _ hbase).2.1,
          (clean_of_segs _ hbase).2.2⟩
      · exact ⟨_, _, rfl, hbase, (clean_of_segs _ hbase).1, (clean_of_segs _ hbase).2.1,
          (clean_of_segs _ hbase).2.2⟩
    · simp only [ne_eq, hf, not_false_eq_true, if_true]
      have hsp : [] ∉ segs ((pyStripSlashes (pyStrip (formGet form "folder" "")) ++ "/" ++
          (strTake (sha256hexdigest data) 16 ++ "." ++ pyLower (afterLastDot fn))).toList) := by
        rw [toList_append, toList_append]
        have hsh : ("/" : String).toList = ['/'] := rfl
        rw [hsh, List.append_assoc, List.singleton_append, segs_append_slash]
        intro hm
        rcases List.mem_append.mp hm with hm | hm
        · exact (h4.resolve_left hf) hm
        · exact hbase hm
      split
      · exact ⟨_, _, rfl, hsp, (clean_of_segs _ hsp).1, (clean_of_segs _ hsp).2.1,
          (clean_of_segs _ hsp).2.2⟩
      · exact ⟨_, _, rfl, hsp, (clean_of_segs _ hsp).1, (clean_of_segs _ hsp).2.1,
          (clean_of_segs _ hsp).2.2⟩

/-- Witness for `C5_key_clean` at a concrete dedup upload with a well-formed
folder. -/
theorem C5_key_clean_witness :
    ("v.mp4" : String) ≠ "" ∧ allowed_file "v.mp4" = true ∧
    ([0, 1] : List Nat).length ≤ MAX_FILE_SIZE ∧
    (pyStrip (formGet [("folder", "a/b")] "folder" "") = "" ∨
      [] ∉ segs (pyStripSlashes (pyStrip (formGet [("folder", "a/b")] "folder" ""))).toList) ∧
    (parse_use_original_name [("folder", "a/b")] = true → [] ∉ segs ("v.mp4").toList) ∧
    (∃ msg d, (upload_file ⟨some ⟨"v.mp4", [0, 1], "video/mp4", 0⟩,
        [("folder", "a/b")]⟩ []).1 = .ok 200 msg d ∧
      [] ∉ segs d.storage_path.toList ∧
      d.storage_path.toList.head? ≠ some '/' ∧
      d.storage_path.toList.getLast? ≠ some '/' ∧
      ¬ ['/', '/'] <:+: d.storage_path.toList) :=
  ⟨by decide, by decide, by decide, by decide, by decide,
   C5_key_clean "v.mp4" [0, 1] "video/mp4" 0 [("folder", "a/b")] []
     (by decide) (by decide) (by decide) (by decide) (by decide)⟩

/-- Claim C6, counterexample.  The extension gate runs before the size gate
(app.py line 79 vs line 83), so an oversized payload under a disallowed
filename fails with the invalid-extension error, not the file-too-large
error — the claim's universal statement over all oversized requests is
false.  (The store is still untouched.) -/
theorem C6_counterexample :
    (List.replicate (100 * 1024 * 1024 + 1) (0 : Nat)).length > MAX_FILE_SIZE ∧
    upload_file ⟨some ⟨"x.txt", List.replicate (100 * 1024 * 1024 + 1) (0 : Nat),
        "text/plain", 0⟩, []⟩ [] =
      (.err 400 "File type not allowed. Only jpg, jpeg, and mp4 are supported", [], []) ∧
    (UploadResp.err 400 "File type not allowed. Only jpg, jpeg, and mp4 are supported" ≠
      UploadResp.err 400 "File too large. Maximum size is 100.0MB") :=
  ⟨by rw [List.length_replicate]; decide, by rfl, by decide⟩

/-- Claim C6 (amended): a request whose file has a non-empty filename with
an allowed extension and whose payload exceeds 100 MiB fails with the HTTP
400 file-too-large error, before any store call: the trace is empty and the
store is unchanged. -/
theorem C6_file_too_large (fn : String) (data : List Nat) (ct : String) (pos : Nat)
    (form : List (String × String)) (store : Store)
    (h1 : fn ≠ "") (h2 : allowed_file fn = true) (h3 : data.length > MAX_FILE_SIZE) :
    upload_file ⟨some ⟨fn, data, ct, pos⟩, form⟩ store =
      (.err 400 "File too large. Maximum size is 100.0MB", store, []) := by
  unfold upload_file
  simp only [fseekEnd, fseek, ftell]
  rw [if_neg h1, if_neg (by simp [h2]), if_pos h3]

/-- Witness for `C6_file_too_large` at a payload one byte over the limit. -/
theorem C6_file_too_large_witness :
    ("big.jpg" : String) ≠ "" ∧ allowed_file "big.jpg" = true ∧
    (List.replicate (MAX_FILE_SIZE + 1) (0 : Nat)).length > MAX_FILE_SIZE ∧
    upload_file ⟨some ⟨"big.jpg", List.replicate (MAX_FILE_SIZE + 1) (0 : Nat),
        "image/jpeg", 0⟩, []⟩ [] =
      (.err 400 "File too large. Maximum size is 100.0MB", [], []) :=
  ⟨by decide, by decide, by rw [List.length_replicate]; decide,
   C6_file_too_large "big.jpg" (List.replicate (MAX_FILE_SIZE + 1) 0) "image/jpeg" 0 [] []
     (by decide) (by decide) (by rw [List.length_replicate]; decide)⟩

/-- Claim C7: a present file whose non-empty filename has no dot, or whose
lowercased suffix after the last dot is not jpg/jpeg/mp4, is rejected with
the HTTP 400 invalid-extension error whatever the payload: the trace is
empty and the store is unchanged. -/
theorem C7_invalid_extension (fn : String) (data : List Nat) (ct : String) (pos : Nat)
    (form : List (String × String)) (store : Store)
    (h1 : fn ≠ "")
    (h2 : fn.toList.contains '.' = false ∨ pyLower (afterLastDot fn) ∉ ALLOWED_EXTENSIONS) :
    upload_file ⟨some ⟨fn, data, ct, pos⟩, form⟩ store =
      (.err 400 "File type not allowed. Only jpg, jpeg, and mp4 are supported", store, []) := by
  have haf : allowed_file fn = false := by
    unfold allowed_file
    rcases h2 with h | h
    · rw [h, Bool.false_and]
    · have hc : ALLOWED_EXTENSIONS.contains (pyLower (afterLastDot fn)) = false := by
        cases hcc : ALLOWED_EXTENSIONS.contains (pyLower (afterLastDot fn)) with
        | false => rfl
        | true => exact absurd (List.mem_of_elem_eq_true hcc) h
      rw [hc, Bool.and_false]
  unfold upload_file
  simp only []
  rw [if_neg h1, if_pos (by simp [haf])]

/-- Witness for `C7_invalid_extension`: a `.txt` upload. -/
theorem C7_invalid_extension_witness :
    ("x.txt" : String) ≠ "" ∧
    (("x.txt" : String).toList.contains '.' = false ∨
      pyLower (afterLastDot "x.txt") ∉ ALLOWED_EXTENSIONS) ∧
    upload_file ⟨some ⟨"x.txt", [1, 2, 3], "text/plain", 0⟩, []⟩ [] =
      (.err 400 "File type not allowed. Only jpg, jpeg, and mp4 are supported", [], []) :=
  ⟨by decide, by decide,
   C7_invalid_extension "x.txt" [1, 2, 3] "text/plain" 0 [] [] (by decide) (by decide)⟩

/-- Claim C8: in dedup mode the digest covers the whole payload read from
the start of the stream, whatever read position the stream arrived with;
the hashing step leaves the position back at 0 with the data intact, and
the subsequent `put` transfers exactly the full payload bytes. -/
theorem C8_full_stream (fn : String) (data : List Nat) (ct : String) (pos : Nat)
    (form : List (String × String)) (store : Store)
    (h1 : fn ≠ "") (h2 : allowed_file fn = true) (h3 : data.length ≤ MAX_FILE_SIZE)
    (h4 : parse_use_original_name form = false)
    (h5 : storeExists store (dedup_key fn data form) = false) :
    (dedup_filename ⟨fn, data, ct, pos⟩ (pyLower (afterLastDot fn))).1 =
      strTake (sha256hexdigest data) 16 ++ "." ++ pyLower (afterLastDot fn) ∧
    (dedup_filename ⟨fn, data, ct, pos⟩ (pyLower (afterLastDot fn))).2 =
      ⟨fn, data, ct, 0⟩ ∧
    (upload_file ⟨some ⟨fn, data, ct, pos⟩, form⟩ store).2.2 =
      [.existsCheck (dedup_key fn data form),
       .put (dedup_key fn data form) data ct,
       .makePublic (dedup_key fn data form)] := by
  refine ⟨by simp [dedup_filename, fseek, fread], by simp [dedup_filename, fseek, fread], ?_⟩
  rw [upload_dedup_fresh fn data ct pos form store h1 h2 h3 h4 h5]

/-- Witness for `C8_full_stream` at a stream whose position starts mid-way
(pos 2), as after a partial read. -/
theorem C8_full_stream_witness :
    ("s.jpg" : String) ≠ "" ∧ allowed_file "s.jpg" = true ∧
    ([10, 20, 30] : List Nat).length ≤ MAX_FILE_SIZE ∧
    parse_use_original_name [] = false ∧
    storeExists [] (dedup_key "s.jpg" [10, 20, 30] []) = false ∧
    ((dedup_filename ⟨"s.jpg", [10, 20, 30], "image/jpeg", 2⟩ (pyLower (afterLastDot "s.jpg"))).1 =
      strTake (sha256hexdigest [10, 20, 30]) 16 ++ "." ++ pyLower (afterLastDot "s.jpg") ∧
    (dedup_filename ⟨"s.jpg", [10, 20, 30], "image/jpeg", 2⟩ (pyLower (afterLastDot "s.jpg"))).2 =
      ⟨"s.jpg", [10, 20, 30], "image/jpeg", 0⟩ ∧
    (upload_file ⟨some ⟨"s.jpg", [10, 20, 30], "image/jpeg", 2⟩, []⟩ []).2.2 =
      [.existsCheck (dedup_key "s.jpg" [10, 20, 30] []),
       .put (dedup_key "s.jpg" [10, 20, 30] []) [10, 20, 30] "image/jpeg",
       .makePublic (dedup_key "s.jpg" [10, 20, 30] [])]) :=
  ⟨by decide, by decide, by decide, by decide, by decide,
   C8_full_stream "s.jpg" [10, 20, 30] "image/jpeg" 2 [] []
     (by decide) (by decide) (by decide) (by decide) (by decide)⟩

/-- Claim C9, counterexample.  The success message when bytes are
transferred is the literal `"File uploaded successfully"`, not `"uploaded"`
(and the dedup-hit message is `"File already exists"`, not
`"already exists"`): the claim's quoted message values do not match the
code's. -/
theorem C9_counterexample :
    (∃ d, (upload_file ⟨some ⟨"n.jpeg", [5], "image/jpeg", 0⟩, []⟩ []).1 =
       .ok 200 "File uploaded successfully" d) ∧
    ("File uploaded successfully" : String) ≠ "uploaded" :=
  ⟨⟨_, rfl⟩, by decide⟩

/-- Claim C9 (amended): the success response carries the message
`"File uploaded successfully"` exactly when a `put` transferred the bytes
and `"File already exists"` on a dedup hit (no `put` in the trace), with a
data record holding the storage key, original filename, size, content type
and public URL. -/
theorem C9_messages (fn : String) (data : List Nat) (ct : String) (pos : Nat)
    (form : List (String × String)) (store : Store)
    (h1 : fn ≠ "") (h2 : allowed_file fn = true) (h3 : data.length ≤ MAX_FILE_SIZE)
    (h4 : parse_use_original_name form = false) :
    (upload_file ⟨some ⟨fn, data, ct, pos⟩, form⟩ store).1 =
      .ok 200
        (if storeExists store (dedup_key fn data form) then "File already exists"
         else "File uploaded successfully")
        ⟨strTake (sha256hexdigest data) 16 ++ "." ++ pyLower (afterLastDot fn),
         dedup_key fn data form, fn, data.length, ct, public_url (dedup_key fn data form)⟩ ∧
    (upload_file ⟨some ⟨fn, data, ct, pos⟩, form⟩ store).2.2 =
      (if storeExists store (dedup_key fn data form) then
         [.existsCheck (dedup_key fn data form), .reload (dedup_key fn data form)]
       else
         [.existsCheck (dedup_key fn data form), .put (dedup_key fn data form) data ct,
          .makePublic (dedup_key fn data form)]) := by
  cases hex : storeExists store (dedup_key fn data form) with
  | true =>
    rw [upload_dedup_hit fn data ct pos form store h1 h2 h3 h4 hex]
    simp
  | false =>
    rw [upload_dedup_fresh fn data ct pos form store h1 h2 h3 h4 hex]
    simp

/-- Witness for `C9_messages` at a concrete fresh upload. -/
theorem C9_messages_witness :
    ("w.jpeg" : String) ≠ "" ∧ allowed_file "w.jpeg" = true ∧
    ([4, 4] : List Nat).length ≤ MAX_FILE_SIZE ∧
    parse_use_original_name [] = false ∧
    ((upload_file ⟨some ⟨"w.jpeg", [4, 4], "image/jpeg", 0⟩, []⟩ []).1 =
      .ok 200
        (if storeExists [] (dedup_key "w.jpeg" [4, 4] []) then "File already exists"
         else "File uploaded successfully")
        ⟨strTake (sha256hexdigest [4, 4]) 16 ++ "." ++ pyLower (afterLastDot "w.jpeg"),
         dedup_key "w.jpeg" [4, 4] [], "w.jpeg", 2, "image/jpeg",
         public_url (dedup_key "w.jpeg" [4, 4] [])⟩ ∧
    (upload_file ⟨some ⟨"w.jpeg", [4, 4], "image/jpeg", 0⟩, []⟩ []).2.2 =
      (if storeExists [] (dedup_key "w.jpeg" [4, 4] []) then
         [.existsCheck (dedup_key "w.jpeg" [4, 4] []), .reload (dedup_key "w.jpeg" [4, 4] [])]
       else
         [.existsCheck (dedup_key "w.jpeg" [4, 4] []),
          .put (dedup_key "w.jpeg" [4, 4] []) [4, 4] "image/jpeg",
          .makePublic (dedup_key "w.jpeg" [4, 4] [])])) :=
  ⟨by decide, by decide, by decide, by decide,
   C9_messages "w.jpeg" [4, 4] "image/jpeg" 0 [] []
     (by decide) (by decide) (by decide) (by decide)⟩

/-- Claim C10: the `use_original_name` field selects original-name mode
exactly when its lowercased value is the string `"true"`; a missing field
defaults to `"false"`, and values such as `" true"`, `"1"` or `"yes"`
leave the handler in dedup mode, while case variants like `"TRUE"` do
enable it. -/
theorem C10_use_original_name_flag :
    (∀ form : List (String × String),
       parse_use_original_name form = true ↔
         pyLower (formGet form "use_original_name" "false") = "true") ∧
    parse_use_original_name [] = false ∧
    parse_use_original_name [("use_original_name", " true")] = false ∧
    parse_use_original_name [("use_original_name", "1")] = false ∧
    parse_use_original_name [("use_original_name", "yes")] = false ∧
    parse_use_original_name [("use_original_name", "TRUE")] = true := by
  refine ⟨fun form => ?_, by decide, by decide, by decide, by decide, by decide⟩
  unfold parse_use_original_name
  exact beq_iff_eq

end FirebaseUpload
